import Mathlib

/-!
Shallow embedding of the pyowmaster device-supervision engine, with theorems
checking the natural-language specification against the code.

Each definition mirrors a Python function of the repository; the file comments
name the source file and symbol being embedded.
-/

namespace Pyowmaster

/-! ### Priority scheduler (pyowmaster/prisched.py, class Queue) -/

/-- One queue entry's due time.  `Queue._queue` is a heap of
`(time, action, argument)` tuples; for dispatch counting only the due time
matters and the actions themselves play no role.  A heap popped repeatedly yields times in
ascending order, so the queue is modelled as a sorted list of due times. -/
abbrev DueTime := Int

/-- The loop body of `Queue.dispatch(now, not_later_than)` (prisched.py).

Python:
```
dispatched = 0
while q:
    time, action, argument = q[0]
    if now < time: return time
    if dispatched >= self.min_dispatch and \
        (dispatched < self.max_dispatch or \
         (not_later_than > 0 and self.timefunc() >= not_later_than)):
        return time
    pop(q); action(*argument); dispatched += 1
return 0
```
`tcur` stands for the value `self.timefunc()` returns during this call (the
model keeps the clock constant over one dispatch call).  The single-threaded
embedding makes the `event is checked_event` re-check always succeed.
Returns `(number of actions executed, return value)`. -/
def dispatchLoop (minDispatch maxDispatch : Nat) (now notLaterThan tcur : Int) :
    List DueTime → Nat → Nat × Int
  | [], dispatched => (dispatched, 0)
  | t :: rest, dispatched =>
    if now < t then (dispatched, t)
    else if minDispatch ≤ dispatched ∧
        (dispatched < maxDispatch ∨ (0 < notLaterThan ∧ notLaterThan ≤ tcur)) then
      (dispatched, t)
    else dispatchLoop minDispatch maxDispatch now notLaterThan tcur rest (dispatched + 1)

/-- Embeds `Queue.dispatch`, entered with `dispatched = 0`. -/
def dispatch (minDispatch maxDispatch : Nat) (now notLaterThan tcur : Int)
    (queue : List DueTime) : Nat × Int :=
  dispatchLoop minDispatch maxDispatch now notLaterThan tcur queue 0

/-! ### Bus I/O statistics (pyowmaster/device/base.py, OwDevice.store_io_statistics
and pyowmaster/__init__.py, MasterStatistics.increment) -/

/-- Embeds `MasterStatistics.increment(key, value)`: the counter map is an assoc list;
an unknown key is pre-inited to 0 and then incremented. -/
def incrementCounter (counters : List (String × ℚ)) (key : String) (value : ℚ) :
    List (String × ℚ) :=
  match counters with
  | [] => [(key, value)]
  | (k, v) :: rest =>
    if k = key then (k, v + value) :: rest
    else (k, v) :: incrementCounter rest key value

/-- Counter lookup (reading `self.counters[key]`). -/
def counterValue (counters : List (String × ℚ)) (key : String) : Option ℚ :=
  match counters with
  | [] => none
  | (k, v) :: rest => if k = key then some v else counterValue rest key

/-- Embeds `OwDevice.store_io_statistics` (device/base.py):
```
self.stats.increment('ops.count_' + OwIoStatistic.OPS[stats.operation], stats.time*1000.0)
self.stats.increment('ops.ms_' + OwIoStatistic.OPS[stats.operation], stats.time*1000.0)
```
`opName` is `OwIoStatistic.OPS[stats.operation]` (`"read"`, `"write"` or
`"dir"`), `time` is the measured duration in seconds. -/
def storeIoStatistics (counters : List (String × ℚ)) (opName : String) (time : ℚ) :
    List (String × ℚ) :=
  let c := incrementCounter counters ("ops.count_" ++ opName) (time * 1000)
  incrementCounter c ("ops.ms_" ++ opName) (time * 1000)

/-! ### Device-ID utilities (pyowmaster/owidutil.py)

The module compiles four regular expressions; each is embedded as the exact
matching function it denotes on `List Char`:
  `RE_DEV_ID`: two `[A-F0-9]` chars, a dot, twelve `[A-F0-9]` chars (search);
  `RE_DEV_ALIAS`: one or more `[A-Za-z0-9\-\_]` chars (match);
  `RE_DEV_CHANNEL`: the dev-id pattern, a dot, one `[0-9AB]` char (match);
  `RE_ALIAS_CHANNEL`: the alias pattern, a dot, one `[0-9AB]` char (match).
`re.match` anchors at the start only; trailing characters are ignored.  All
sub-patterns are fixed-length except the alias run, and `+` is greedy over a
character class that excludes the following literal dot, so only the maximal
run can be followed by the dot: backtracking never yields another match. -/

/-- Character class `[A-F0-9]`. -/
def isHexUpper (c : Char) : Bool :=
  decide (('0' ≤ c ∧ c ≤ '9') ∨ ('A' ≤ c ∧ c ≤ 'F'))

/-- Character class `[0-9AB]` (the channel group). -/
def isChannelChar (c : Char) : Bool :=
  decide (('0' ≤ c ∧ c ≤ '9') ∨ c = 'A' ∨ c = 'B')

/-- Character class `[A-Za-z0-9\-\_]` (the alias group). -/
def isAliasChar (c : Char) : Bool :=
  decide (('A' ≤ c ∧ c ≤ 'Z') ∨ ('a' ≤ c ∧ c ≤ 'z') ∨ ('0' ≤ c ∧ c ≤ '9') ∨
    c = '-' ∨ c = '_')

/-- Embeds `RE_DEV_ID` applied at a fixed position: two hex chars, a dot, twelve hex
chars; returns the 15 matched characters. -/
def matchDevIdAt (cs : List Char) : Option (List Char) :=
  match cs with
  | c0 :: c1 :: d :: rest =>
    if isHexUpper c0 && isHexUpper c1 && (d == '.') then
      let suffix := rest.take 12
      if suffix.length == 12 && suffix.all isHexUpper then
        some (c0 :: c1 :: '.' :: suffix)
      else none
    else none
  | _ => none

/-- Embeds `RE_DEV_ID.search`: leftmost match anywhere in the string. -/
def searchDevId : List Char → Option (List Char)
  | [] => none
  | c :: rest =>
    match matchDevIdAt (c :: rest) with
    | some m => some m
    | none => searchDevId rest

/-- Embeds `owid_from_path(id_or_path)` (owidutil.py). -/
def owid_from_path (s : String) : Option String :=
  (searchDevId s.data).map String.mk

/-- Embeds `is_owid(id_or_path)`: `RE_DEV_ID.match`, anchored at the start. -/
def is_owid (s : String) : Bool :=
  (matchDevIdAt s.data).isSome

/-- Embeds `is_valid_alias(alias)`: `RE_DEV_ALIAS.match`, at least one alias char at
the start. -/
def is_valid_alias (s : String) : Bool :=
  match s.data with
  | [] => false
  | c :: _ => isAliasChar c

/-- Embeds `RE_DEV_CHANNEL.match(tgt)`: device-id pattern, a dot, one `[0-9AB]` char;
the groups. -/
def matchDevChannel (cs : List Char) : Option (String × String) :=
  match matchDevIdAt cs with
  | none => none
  | some devId =>
    match cs.drop 15 with
    | d :: ch :: _ =>
      if d == '.' && isChannelChar ch then some (String.mk devId, String.mk [ch])
      else none
    | _ => none

/-- Embeds `RE_ALIAS_CHANNEL.match(tgt)`: a maximal nonempty run of alias chars, a
dot, one `[0-9AB]` char; the groups. -/
def matchAliasChannel (cs : List Char) : Option (String × String) :=
  let run := cs.takeWhile isAliasChar
  if run.isEmpty then none
  else
    match cs.drop run.length with
    | d :: ch :: _ =>
      if d == '.' && isChannelChar ch then some (String.mk run, String.mk [ch])
      else none
    | _ => none

/-- Embeds `parse_target(tgt)` (owidutil.py): try `RE_DEV_CHANNEL`, then
`RE_ALIAS_CHANNEL`, then `owid_from_path`, then plain alias. -/
def parse_target (tgt : String) : Option String × Option String :=
  match matchDevChannel tgt.data with
  | some (devId, ch) => (some devId, some ch)
  | none =>
    match matchAliasChannel tgt.data with
    | some (aliasRun, ch) => (some aliasRun, some ch)
    | none =>
      match owid_from_path tgt with
      | some devId => (some devId, none)
      | none =>
        if is_valid_alias tgt then (some tgt, none) else (none, none)

/-! ### Device inventory and factory (pyowmaster/__init__.py,
DeviceFactory.create, DeviceInventory.find, DeviceInventory._create_device) -/

/-- A stored inventory entry: `DeviceInventory.devices[dev_id]` holds either a
device object or Python `False` for an unsupported family. A created device is
identified by its constructor tag (from the family registry) and its ID. -/
inductive DevEntry where
  | unsupported
  | dev (ctor : Nat) (devId : String)
deriving DecidableEq

/-- Assoc-list lookup, `dict.get`. -/
def lookupAssoc {α : Type} (l : List (String × α)) (key : String) : Option α :=
  match l with
  | [] => none
  | (k, v) :: rest => if k = key then some v else lookupAssoc rest key

/-- Assoc-list store, `dict[key] = value`. -/
def storeAssoc {α : Type} (l : List (String × α)) (key : String) (value : α) :
    List (String × α) :=
  match l with
  | [] => [(key, value)]
  | (k, v) :: rest =>
    if k = key then (k, value) :: rest else (k, v) :: storeAssoc rest key value

/-- Embeds `DeviceFactory.create(dev_id)`: look the first two characters up in the
family registry; unknown family yields `None`, otherwise a constructed device.
(`init` and `config` side effects are irrelevant to the inventory claims.) -/
def factoryCreate (registry : List (String × Nat)) (devId : String) :
    Option (Nat × String) :=
  match lookupAssoc registry (devId.take 2) with
  | none => none
  | some ctor => some (ctor, devId)

/-- The inventory's device map. -/
structure Inventory where
  devices : List (String × DevEntry)
deriving DecidableEq

/-- Embeds `DeviceInventory._create_device(dev_id)`: builds the device (or the
`False` sentinel), stores it in `self.devices` — and then falls off the end of
the function body, so Python returns `None`.  The returned `Option` is that
return value. -/
def createDevice (registry : List (String × Nat)) (inv : Inventory)
    (devId : String) : Inventory × Option (Nat × String) :=
  let entry :=
    match factoryCreate registry devId with
    | none => DevEntry.unsupported
    | some d => DevEntry.dev d.1 d.2
  (⟨storeAssoc inv.devices devId entry⟩, none)

/-- Embeds `DeviceInventory.find(id_or_path, create)` (pyowmaster/__init__.py).
`dev == None` distinguishes a missing key; a stored `False` is caught by the
final `if dev == False` check; after `_create_device` the local `dev` is
`None`, which is not `== False`, so it is returned as-is. -/
def find (registry : List (String × Nat)) (inv : Inventory) (idOrPath : String)
    (create : Bool) : Inventory × Option (Nat × String) :=
  match owid_from_path idOrPath with
  | none => (inv, none)
  | some devId =>
    match lookupAssoc inv.devices devId with
    | some (DevEntry.dev ctor d) => (inv, some (ctor, d))
    | some DevEntry.unsupported => (inv, none)
    | none =>
      if create then createDevice registry inv devId
      else (inv, none)

/-! ### PIO device engine (pyowmaster/device/pio.py) -/

def PIO_MODE_OUTPUT : Nat := 0b00001
def PIO_MODE_INPUT : Nat := 0b00010
def PIO_MODE_INPUT_MOMENTARY : Nat := 0b00100 ||| PIO_MODE_INPUT
def PIO_MODE_INPUT_TOGGLE : Nat := 0b01000 ||| PIO_MODE_INPUT
def PIO_MODE_ACTIVE_LOW : Nat := 0b00000
def PIO_MODE_ACTIVE_HIGH : Nat := 0b10000

/-- Embeds `test_bits(value, mask)` (pio.py). -/
def test_bits (value mask : Nat) : Bool :=
  (value &&& mask) == mask

/-- Tests whether `pat` matches at the head of `s` (helper for Python `str.find`). -/
def charsStartWith : List Char → List Char → Bool
  | _, [] => true
  | [], _ :: _ => false
  | a :: as, b :: bs => a == b && charsStartWith as bs

/-- Tests whether `pat` occurs somewhere in `s` (helper for Python `str.find`). -/
def charsContain : List Char → List Char → Bool
  | [], pat => pat.isEmpty
  | a :: as, pat => charsStartWith (a :: as) pat || charsContain as pat

/-- Python `mode.find(pat) != -1`: substring containment. -/
def strFind (s pat : String) : Bool :=
  charsContain s.data pat.data

/-- Embeds `OwPIOBase.parse_pio_mode(mode)` (pio.py). -/
def parse_pio_mode (mode : String) : Nat :=
  let cfg :=
    if strFind mode "output" then PIO_MODE_OUTPUT
    else
      let c := PIO_MODE_INPUT
      if strFind mode "toggle" then c ||| PIO_MODE_INPUT_TOGGLE
      else c ||| PIO_MODE_INPUT_MOMENTARY
  if strFind mode "active low" then cfg ||| PIO_MODE_ACTIVE_LOW
  else if strFind mode "active high" then cfg ||| PIO_MODE_ACTIVE_HIGH
  else cfg ||| PIO_MODE_ACTIVE_LOW

/-- An `OwPIOChannel`: zero-based index `num`, textual `name`, and the parsed
`mode` bitmask. -/
structure OwPIOChannel where
  num : Nat
  name : String
  mode : Nat
deriving DecidableEq

/-- Embeds `OwPIOChannel.is_set(value)`: this channel's bit in a bitmask. -/
def chIsSet (ch : OwPIOChannel) (value : Nat) : Bool :=
  (value &&& (1 <<< ch.num)) != 0

def is_output (ch : OwPIOChannel) : Bool := test_bits ch.mode PIO_MODE_OUTPUT
def is_input (ch : OwPIOChannel) : Bool := test_bits ch.mode PIO_MODE_INPUT
def is_input_momentary (ch : OwPIOChannel) : Bool :=
  test_bits ch.mode PIO_MODE_INPUT_MOMENTARY
def is_input_toggle (ch : OwPIOChannel) : Bool :=
  test_bits ch.mode PIO_MODE_INPUT_TOGGLE
def is_active_high (ch : OwPIOChannel) : Bool :=
  test_bits ch.mode PIO_MODE_ACTIVE_HIGH

/-- Embeds `OwPIOEvent(timestamp, channel, value, is_reset)` (event/events.py); the
value is one of `"ON"`, `"OFF"`, `"TRIGGED"` or a MoaT state name. -/
structure OwPIOEvent where
  timestamp : ℚ
  channel : String
  value : String
  isReset : Bool
deriving DecidableEq

/-- Embeds `OwPIODevice._handle_alarm(timestamp, latch, sensed, last_sensed)`
(pio.py): the per-channel loop, returning the events emitted in order.
Channels whose latch bit is clear are skipped.  An invalid mode raises
`RuntimeError`, modelled by `Except.error`. -/
def handleAlarm (timestamp : ℚ) (latch sensed : Nat) (lastSensed : Option Nat) :
    List OwPIOChannel → Except String (List OwPIOEvent)
  | [] => .ok []
  | ch :: rest =>
    if chIsSet ch latch = false then
      handleAlarm timestamp latch sensed lastSensed rest
    else
      let chSensed := chIsSet ch sensed
      let chActiveLevel := is_active_high ch
      let chLastSensed : Option Bool := lastSensed.map fun ls => chIsSet ch ls
      let chHasChanged : Option Bool := chLastSensed.map fun c => c != chSensed
      let eventType : Except String (Option String) :=
        if is_output ch || (is_input ch && is_input_toggle ch) then
          .ok (if chHasChanged ≠ some false then
                some (if chSensed = chActiveLevel then "ON" else "OFF")
              else none)
        else if is_input_momentary ch then
          -- suppress the closing edge of a press-and-release double transition
          .ok (if chSensed = chActiveLevel ∨ chLastSensed ≠ some chActiveLevel then
                some "TRIGGED"
              else none)
        else .error "Invalid input mode"
      match eventType with
      | .error e => .error e
      | .ok et =>
        match handleAlarm timestamp latch sensed lastSensed rest with
        | .error e => .error e
        | .ok evs =>
          .ok ((match et with
                | some v => [OwPIOEvent.mk timestamp ch.name v false]
                | none => []) ++ evs)

/-- Embeds `OwPIODevice._emit_init_state(sensed)` (pio.py): one `is_reset` event per
toggle-input or output channel, `ON` when the sensed bit equals the active
level, `OFF` otherwise. -/
def emitInitState (now : ℚ) (sensed : Nat) (channels : List OwPIOChannel) :
    List OwPIOEvent :=
  channels.filterMap fun ch =>
    if is_input_toggle ch || is_output ch then
      some (OwPIOEvent.mk now ch.name
        (if chIsSet ch sensed = is_active_high ch then "ON" else "OFF") true)
    else none

/-- Per-device PIO state (`OwPIODevice.__init__` / `config`). -/
structure PIODeviceState where
  channels : List OwPIOChannel
  wantedAlarm : String
  initialSetupDone : Bool
  lastSensed : Option Nat
  alarmSupported : Bool
deriving DecidableEq

/-- Result of `check_alarm_config`: the updated state, the events emitted, the
`(path, data)` writes issued, and the returned flag. -/
structure CheckResult where
  st : PIODeviceState
  events : List OwPIOEvent
  writes : List (String × String)
  reconfigured : Bool
deriving DecidableEq

/-- Embeds `OwPIODevice.check_alarm_config()` (pio.py).  `alarmRead` is the uncached
`set_alarm` read, `sensedRead` the `sensed.BYTE` read performed when initial
state is emitted.  Returns True exactly when a change was applied, but emits
the initial-state events also on the first call with a matching register. -/
def checkAlarmConfig (st : PIODeviceState) (now : ℚ) (alarmRead : String)
    (sensedRead : Nat) : CheckResult :=
  let reconfigured := alarmRead != st.wantedAlarm
  let writes :=
    if reconfigured then [("set_alarm", st.wantedAlarm), ("latch.BYTE", "1")]
    else []
  let events :=
    if reconfigured || !st.initialSetupDone then
      emitInitState now sensedRead st.channels
    else []
  ⟨{ st with initialSetupDone := true }, events, writes, reconfigured⟩

/-- Result of `on_alarm`: updated state, events, writes. -/
structure AlarmResult where
  st : PIODeviceState
  events : List OwPIOEvent
  writes : List (String × String)
deriving DecidableEq

/-- Embeds `OwPIODevice.on_alarm(timestamp)` (pio.py).  The bus reads are inputs:
`alarmRead`/`sensedAtCheck` feed `check_alarm_config`, `latchRead` and
`sensedRead` are the uncached `latch.BYTE`/`sensed.BYTE` reads.  If
reconfiguration happened the alarm is ignored; otherwise the latch is cleared,
the alarm decoded, and `last_sensed` updated to the sensed byte. -/
def onAlarm (st : PIODeviceState) (timestamp now : ℚ) (alarmRead : String)
    (sensedAtCheck latchRead sensedRead : Nat) : Except String AlarmResult :=
  if st.alarmSupported = false then .ok ⟨st, [], []⟩
  else
    let c := checkAlarmConfig st now alarmRead sensedAtCheck
    if c.reconfigured then .ok ⟨c.st, c.events, c.writes⟩
    else
      match handleAlarm timestamp latchRead sensedRead c.st.lastSensed c.st.channels with
      | .error e => .error e
      | .ok evs =>
        .ok ⟨{ c.st with lastSensed := some sensedRead },
          c.events ++ evs,
          c.writes ++ [("latch.BYTE", "1")]⟩

/-! ### 8-channel PIO alarm register (pyowmaster/device/DS2408.py) -/

/-- Python `str.lstrip('0')`. -/
def lstripZeros (s : String) : String :=
  String.mk (s.data.dropWhile (· == '0'))

/-- Embeds `DS2408._calculate_alarm_setting` (DS2408.py).  `alarmSource` is `None`
for `ALARM_SOURCE_NONE` or one of 0..3 (`PIO_OR`, `LATCH_OR`, `PIO_AND`,
`LATCH_AND`); the register is the source digit followed by one selector digit
per channel (`3` for latch sources; `3`/`2` by polarity for PIO sources),
least-significant channel last, with leading zeros stripped. -/
def calculateAlarmSetting2408 (alarmSource : Option Nat)
    (channels : List OwPIOChannel) : String :=
  match alarmSource with
  | none => "00000000000"
  | some src =>
    let srcIsLatch := src = 1 ∨ src = 3
    let alarmStr := channels.foldl
      (fun acc ch =>
        acc ++ (if srcIsLatch then "3"
                else if is_active_high ch then "3" else "2"))
      (toString src)
    lstripZeros alarmStr

/-- The DS2408 fields that `_calculate_alarm_setting` reads and writes. -/
structure DS2408State where
  alarmSource : Option Nat
  channels : List OwPIOChannel
  wantedAlarm : String
deriving DecidableEq

/-- Running `_calculate_alarm_setting` on a DS2408: recompute `wanted_alarm`
from the alarm source and channel modes. -/
def recalcAlarm (st : DS2408State) : DS2408State :=
  { st with wantedAlarm := calculateAlarmSetting2408 st.alarmSource st.channels }

/-! ### MoaT ADC state-threshold machine (pyowmaster/device/MoaT.py,
MoaTADCChannel) -/

def ADC_MIN : Nat := 0
def ADC_MAX : Nat := 65535

/-- One configured `(name, low, high, guess)` state entry. -/
structure AdcStateEnt where
  name : String
  low : Nat
  high : Nat
  guess : Bool
deriving DecidableEq

/-- Embeds `MoaTADCChannel.get_state_entry(value)`: the first entry (in the
low-sorted list) with `low ≤ value ≤ high`. -/
def get_state_entry (states : List AdcStateEnt) (value : Nat) : Option AdcStateEnt :=
  match states with
  | [] => none
  | s :: rest =>
    if s.low ≤ value ∧ value ≤ s.high then some s else get_state_entry rest value

/-- The `MoaTADCChannel` fields touched by init/set_state/set_thresholds. -/
structure AdcChannelState where
  name : String
  wantedLow : Option Nat
  wantedHigh : Option Nat
  lowThreshold : Option Nat
  highThreshold : Option Nat
  currentState : Option String
  value : Nat
deriving DecidableEq

/-- Embeds `MoaTADCChannel.set_thresholds(low, high)` (MoaT.py): update the wanted
thresholds from the given arguments, then disable rails (`None` or `ADC_MIN`
low becomes `ADC_MAX`; `None` or `ADC_MAX` high becomes `0`), write
`"low,high"` to the device and record the written values as the actuals.
Returns the updated state and the written `(low, high)` pair. -/
def setThresholds (st : AdcChannelState) (low high : Option Nat) :
    AdcChannelState × Nat × Nat :=
  let wl0 := match low with | some v => some v | none => st.wantedLow
  let wh0 := match high with | some v => some v | none => st.wantedHigh
  let wl := match wl0 with
    | none => ADC_MAX
    | some v => if v = ADC_MIN then ADC_MAX else v
  let wh := match wh0 with
    | none => 0
    | some v => if v = ADC_MAX then 0 else v
  ({ st with
      wantedLow := some wl
      wantedHigh := some wh
      lowThreshold := some wl
      highThreshold := some wh }, wl, wh)

/-- Embeds `MoaTADCChannel.calculate_state_thresholds(value, state_ent)` (MoaT.py). -/
def calculate_state_thresholds (value : Nat) (ent : Option AdcStateEnt) :
    Nat × Nat :=
  match ent with
  | some s => (s.low, s.high)
  | none => (max ADC_MIN (value - 5000), min ADC_MAX (value + 5000))

/-- Embeds `MoaTADCChannel.set_state(timestamp, state_ent, is_reset)` (MoaT.py):
record the new state, emit a `PIO` event carrying the state name, and write
the state's thresholds.  Returns state, event and written thresholds. -/
def setState (st : AdcChannelState) (ts : ℚ) (ent : AdcStateEnt)
    (isReset : Bool) : AdcChannelState × OwPIOEvent × Nat × Nat :=
  let st1 := { st with currentState := some ent.name }
  let ev := OwPIOEvent.mk ts st1.name ent.name isReset
  let th := calculate_state_thresholds st1.value (some ent)
  let r := setThresholds st1 (some th.1) (some th.2)
  (r.1, ev, r.2)

/-- Embeds `MoaTADCChannel.init(value)` for a state-mode channel (MoaT.py): find the
covering entry and enter it with `is_reset=True`.  When no entry covers the
value, `set_state` subscripts `None` and Python raises; that path is `none`. -/
def adcInit (st : AdcChannelState) (ts : ℚ) (states : List AdcStateEnt)
    (value : Nat) : Option (AdcChannelState × OwPIOEvent × Nat × Nat) :=
  let st0 := { st with value := value }
  match get_state_entry states value with
  | some s => some (setState st0 ts s true)
  | none => none

/-! ### Scan connection-error backoff (pyowmaster/__init__.py, OwMaster.scan) -/

/-- The two outcomes of `self._scan(...)` that the claim distinguishes. -/
inductive ScanOutcome where
  | success
  | connError
deriving DecidableEq

/-- What one `scan` call leaves behind: the error counter, the delay used to
reschedule the same scan mode (the `finally` block), and what was logged. -/
structure ScanResult where
  scanConnErrs : Nat
  nextDelay : ℚ
  loggedBackOnline : Bool
  loggedBackoff : Option Nat
deriving DecidableEq

/-- Embeds `OwMaster.scan(scan_mode)` (pyowmaster/__init__.py): on success the error
counter resets (logging "Connection back online" if it was non-zero) and the
backoff stays 0; on `ConnError` the counter increments and
`backoff = min(errs*2 + 1, 20)` is logged; the `finally` block reschedules
after `scan_interval[scan_mode] + backoff`. -/
def scan (errs : Nat) (interval : ℚ) (outcome : ScanOutcome) : ScanResult :=
  match outcome with
  | .success =>
    { scanConnErrs := 0
      nextDelay := interval + 0
      loggedBackOnline := decide (0 < errs)
      loggedBackoff := none }
  | .connError =>
    let errs2 := errs + 1
    let backoff := min (errs2 * 2 + 1) 20
    { scanConnErrs := errs2
      nextDelay := interval + (backoff : ℚ)
      loggedBackOnline := false
      loggedBackoff := some backoff }

/-! ### Event dispatcher pause/resume (pyowmaster/event/handler.py,
OwEventDispatcher) -/

/-- Dispatcher state: the `paused` flag, the pause buffer, and the sequence of
events handed to `_emit_event` (each of which fans out to the handlers on the
calling thread, in order). -/
structure Dispatcher (α : Type) where
  paused : Bool
  pauseQueue : List α
  delivered : List α
deriving DecidableEq

/-- Embeds `OwEventDispatcher._emit_event(event)`. -/
def emitEvent {α : Type} (d : Dispatcher α) (ev : α) : Dispatcher α :=
  { d with delivered := d.delivered ++ [ev] }

/-- Embeds `OwEventDispatcher.handle_event(event)` (handler.py): when paused, drop
the oldest buffered event with a warning once the buffer holds 100, then
append; otherwise deliver immediately.  The Bool reports the warning. -/
def handle_event {α : Type} (d : Dispatcher α) (ev : α) : Dispatcher α × Bool :=
  if d.paused then
    if 100 ≤ d.pauseQueue.length then
      ({ d with pauseQueue := d.pauseQueue.drop 1 ++ [ev] }, true)
    else
      ({ d with pauseQueue := d.pauseQueue ++ [ev] }, false)
  else (emitEvent d ev, false)

/-- Embeds `OwEventDispatcher.resume()` (handler.py): clear `paused`, push every
buffered event through `_emit_event` in FIFO order, empty the buffer. -/
def resume {α : Type} (d : Dispatcher α) : Dispatcher α :=
  { paused := false
    pauseQueue := []
    delivered := d.delivered ++ d.pauseQueue }

/-! ## Theorems -/

/-- C1: the spec says a `dispatch(now, not_later_than)` call on a queue with
`min_dispatch = m`, `max_dispatch = M` executes at most `M` actions.  The code
tests `dispatched < self.max_dispatch` where its own docstring ("how many
events we are allowed to execute in one go") requires `>=`: with
`min_dispatch = max_dispatch = 1`, `not_later_than = 0` and three events due
at time 0, the call executes all three actions, exceeding `M = 1`. -/
theorem dispatch_exceeds_max_dispatch :
    (dispatch 1 1 0 0 0 [0, 0, 0]).1 = 3 ∧ 1 < (dispatch 1 1 0 0 0 [0, 0, 0]).1 := by
  decide

/-- C2: the spec says each bus op increments `ops.count_<op>` by exactly 1 and
`ops.ms_<op>` by the duration in milliseconds.  The code increments *both*
counters by `stats.time*1000.0`: a read taking 2 s leaves
`ops.count_read = 2000`, not `1` (the `ms` counter is correct). -/
theorem store_io_statistics_count_bug :
    counterValue (storeIoStatistics [] "read" 2) "ops.count_read" = some 2000 ∧
    counterValue (storeIoStatistics [] "read" 2) "ops.ms_read" = some 2000 ∧
    (2000 : ℚ) ≠ 1 := by
  refine ⟨?_, ?_, by norm_num⟩ <;>
    simp [storeIoStatistics, incrementCounter, counterValue] <;> norm_num

/-- C3: the spec says `find(id, create=True)` returns a device object,
creating and storing one for an unknown ID with a registered family.
`_create_device` stores the device but is missing its `return` statement
(its own docstring says "the device is then returned"), so the *first*
creating call returns `None`; the device is nevertheless stored, and every
later `find` of the same ID returns that stored instance.  An unregistered
family returns nothing, as claimed. -/
theorem find_create_missing_return_bug :
    (find [("10", 0)] ⟨[]⟩ "10.0123456789AB" true).2 = none ∧
    lookupAssoc (find [("10", 0)] ⟨[]⟩ "10.0123456789AB" true).1.devices
      "10.0123456789AB" = some (DevEntry.dev 0 "10.0123456789AB") ∧
    (find [("10", 0)] (find [("10", 0)] ⟨[]⟩ "10.0123456789AB" true).1
      "10.0123456789AB" true).2 = some (0, "10.0123456789AB") ∧
    (find [("10", 0)] (find [("10", 0)] ⟨[]⟩ "10.0123456789AB" true).1
      "10.0123456789AB" false).2 = some (0, "10.0123456789AB") ∧
    (find [("10", 0)] ⟨[]⟩ "FF.0123456789AB" true).2 = none := by
  decide

/-- C4: the spec claims `parse_target` inverts target formatting for *every*
device/channel pair.  For a composite-slave (MoaT, family F0) channel such as
`port.1` the channel group `[0-9AB]` cannot match, and the alias regexp then
matches the family code as alias and the first hex digit as channel:
`parse_target` returns `("F0", "0")`.  The repository's own test
(`tests/test_owidutil.py`) expects `("F0.0BD2C6D4CC6D", "port.1")` here. -/
theorem parse_target_moat_channel_bug :
    parse_target "F0.0BD2C6D4CC6D.port.1" = (some "F0", some "0") ∧
    parse_target "F0.0BD2C6D4CC6D.port.1" ≠
      (some "F0.0BD2C6D4CC6D", some "port.1") := by
  decide

/-- C5: a latched momentary-input channel emits exactly one TRIGGED event,
except on the closing edge of a double transition (sensed at the inactive
level while the last-known sensed value was the active level), which is
suppressed; and in scenario S2 (family-12 device, channel A momentary active
low, `last_sensed=0`, alarm with `latch=0b01`, `sensed=0b00`) exactly one
TRIGGED event is emitted for A and `last_sensed` stays 0. -/
theorem momentary_trigged_spec :
    (∀ (ts : ℚ) (latch sensed : Nat) (lastSensed : Option Nat)
        (ch : OwPIOChannel),
      is_output ch = false → is_input_toggle ch = false →
      is_input_momentary ch = true → chIsSet ch latch = true →
      handleAlarm ts latch sensed lastSensed [ch] =
        .ok (if chIsSet ch sensed ≠ is_active_high ch ∧
              lastSensed.map (fun ls => chIsSet ch ls) =
                some (is_active_high ch)
            then []
            else [OwPIOEvent.mk ts ch.name "TRIGGED" false])) ∧
    onAlarm
      ⟨[⟨0, "A", parse_pio_mode "input momentary active low"⟩,
        ⟨1, "B", parse_pio_mode "input momentary active low"⟩],
        "311", true, some 0, true⟩ 5 5 "311" 0 1 0 =
      .ok ⟨⟨[⟨0, "A", parse_pio_mode "input momentary active low"⟩,
        ⟨1, "B", parse_pio_mode "input momentary active low"⟩],
        "311", true, some 0, true⟩,
        [OwPIOEvent.mk 5 "A" "TRIGGED" false], [("latch.BYTE", "1")]⟩ := by
  constructor
  · intro ts latch sensed lastSensed ch hOut hTog hMom hLatch
    by_cases hA : chIsSet ch sensed = is_active_high ch <;>
      by_cases hB : lastSensed.map (fun ls => chIsSet ch ls) =
        some (is_active_high ch) <;>
      simp [handleAlarm, hLatch, hOut, hTog, hMom, hA, hB]
  · rfl

/-- Witness for C5: the general clause applied to a concrete momentary
active-low channel whose latch bit is set. -/
theorem momentary_trigged_spec_witness :
    handleAlarm 0 1 0 (some 0)
      [⟨0, "A", parse_pio_mode "input momentary active low"⟩] =
      .ok [OwPIOEvent.mk 0 "A" "TRIGGED" false] := by
  have h := momentary_trigged_spec.1 0 1 0 (some 0)
    ⟨0, "A", parse_pio_mode "input momentary active low"⟩
    (by decide) (by decide) (by decide) (by decide)
  rw [h]; rfl

/-- C6: the DS2408 `wanted_alarm` is a deterministic (pure) function of the
alarm source and the channel modes — recomputing it leaves the device state
unchanged — and eight channels configured `input momentary active low` with
the latch-OR source yield the register string "133333333". -/
theorem wanted_alarm_deterministic :
    (∀ st : DS2408State, recalcAlarm (recalcAlarm st) = recalcAlarm st) ∧
    calculateAlarmSetting2408 (some 1)
      ((List.range 8).map fun i =>
        ⟨i, toString i, parse_pio_mode "input momentary active low"⟩) =
      "133333333" := by
  exact ⟨fun st => rfl, by decide⟩

/-- C10: `check_alarm_config` emits the initial-state events (is_reset, ON
when sensed equals the active level else OFF, only for toggle-input and
output channels) when the register was rewritten *and also* on the very first
invocation with a matching register; on later invocations with a matching
register it emits nothing and returns false. -/
theorem check_alarm_config_spec :
    ∀ (st : PIODeviceState) (now : ℚ) (alarmRead : String) (sensedRead : Nat),
      (st.initialSetupDone = false →
        (checkAlarmConfig st now alarmRead sensedRead).events =
          emitInitState now sensedRead st.channels) ∧
      (alarmRead ≠ st.wantedAlarm →
        (checkAlarmConfig st now alarmRead sensedRead).events =
          emitInitState now sensedRead st.channels ∧
        (checkAlarmConfig st now alarmRead sensedRead).reconfigured = true) ∧
      (st.initialSetupDone = true → alarmRead = st.wantedAlarm →
        (checkAlarmConfig st now alarmRead sensedRead).events = [] ∧
        (checkAlarmConfig st now alarmRead sensedRead).reconfigured = false) ∧
      (checkAlarmConfig st now alarmRead sensedRead).st.initialSetupDone = true ∧
      (∀ ev ∈ emitInitState now sensedRead st.channels, ev.isReset = true) ∧
      (∀ ch ∈ st.channels, (is_input_toggle ch || is_output ch) = true →
        OwPIOEvent.mk now ch.name
          (if chIsSet ch sensedRead = is_active_high ch then "ON" else "OFF")
          true ∈ emitInitState now sensedRead st.channels) ∧
      (∀ ev ∈ emitInitState now sensedRead st.channels,
        ∃ ch ∈ st.channels, (is_input_toggle ch || is_output ch) = true ∧
          ev = OwPIOEvent.mk now ch.name
            (if chIsSet ch sensedRead = is_active_high ch then "ON" else "OFF")
            true) := by
  intro st now alarmRead sensedRead
  refine ⟨?_, ?_, ?_, ?_, ?_, ?_, ?_⟩
  · intro h
    simp [checkAlarmConfig, h]
  · intro h
    constructor <;> simp [checkAlarmConfig, bne_iff_ne, h]
  · intro h1 h2
    constructor <;> simp [checkAlarmConfig, h1, h2]
  · simp [checkAlarmConfig]
  · intro ev hev
    simp only [emitInitState, List.mem_filterMap] at hev
    obtain ⟨ch, _, hch⟩ := hev
    split at hch
    · exact (Option.some_inj.mp hch) ▸ rfl
    · exact absurd hch (by simp)
  · intro ch hch hto
    simp only [emitInitState, List.mem_filterMap]
    exact ⟨ch, hch, by simp [hto]⟩
  · intro ev hev
    simp only [emitInitState, List.mem_filterMap] at hev
    obtain ⟨ch, hch, heq⟩ := hev
    by_cases hto : (is_input_toggle ch || is_output ch) = true
    · refine ⟨ch, hch, hto, ?_⟩
      simp [hto] at heq
      exact heq.symm
    · simp [hto] at heq

/-- Witness for C10: first invocation with a matching register on a device
with one toggle input still emits its initial-state event. -/
theorem check_alarm_config_spec_witness :
    (checkAlarmConfig
      ⟨[⟨0, "A", parse_pio_mode "input toggle active low"⟩], "311", false,
        none, true⟩ 0 "311" 0).events =
      emitInitState 0 0 [⟨0, "A", parse_pio_mode "input toggle active low"⟩] ∧
    (checkAlarmConfig
      ⟨[⟨0, "A", parse_pio_mode "input toggle active low"⟩], "311", true,
        none, true⟩ 0 "311" 0).events = [] := by
  constructor
  · exact (check_alarm_config_spec
      ⟨[⟨0, "A", parse_pio_mode "input toggle active low"⟩], "311", false,
        none, true⟩ 0 "311" 0).1 rfl
  · exact ((check_alarm_config_spec
      ⟨[⟨0, "A", parse_pio_mode "input toggle active low"⟩], "311", true,
        none, true⟩ 0 "311" 0).2.2.1 rfl rfl).1

/-- C7: after state-mode initialization with a value covered by entry `S`,
the thresholds written to the device are `(S.low, S.high)` with the
rail-disable rule applied: a low bound equal to `ADC_MIN` is written as
`ADC_MAX`, a high bound equal to `ADC_MAX` is written as `0`; the channel
enters state `S.name` with an `is_reset` event. -/
theorem adc_init_thresholds (st : AdcChannelState) (ts : ℚ)
    (states : List AdcStateEnt) (value : Nat) (S : AdcStateEnt)
    (h : get_state_entry states value = some S) :
    adcInit st ts states value = some
      ({ st with
          value := value
          currentState := some S.name
          wantedLow := some (if S.low = ADC_MIN then ADC_MAX else S.low)
          wantedHigh := some (if S.high = ADC_MAX then 0 else S.high)
          lowThreshold := some (if S.low = ADC_MIN then ADC_MAX else S.low)
          highThreshold := some (if S.high = ADC_MAX then 0 else S.high) },
        OwPIOEvent.mk ts st.name S.name true,
        (if S.low = ADC_MIN then ADC_MAX else S.low),
        (if S.high = ADC_MAX then 0 else S.high)) := by
  simp [adcInit, h, setState, calculate_state_thresholds, setThresholds]

/-- Witness for C7: the S4 configuration `closed(3000..38000)`,
`open(38000..45000)`, with init at value 20000, enters `closed` and writes
`(3000, 38000)` (no rail hit). -/
theorem adc_init_thresholds_witness :
    adcInit ⟨"adc.1", none, none, none, none, none, 0⟩ 0
      [⟨"closed", 3000, 38000, true⟩, ⟨"open", 38000, 45000, true⟩] 20000 =
      some (⟨"adc.1", some 3000, some 38000, some 3000, some 38000,
        some "closed", 20000⟩,
        OwPIOEvent.mk 0 "adc.1" "closed" true, 3000, 38000) := by
  have h := adc_init_thresholds ⟨"adc.1", none, none, none, none, none, 0⟩ 0
    [⟨"closed", 3000, 38000, true⟩, ⟨"open", 38000, 45000, true⟩] 20000
    ⟨"closed", 3000, 38000, true⟩ (by decide)
  simpa using h

/-- C8: a scan failing with a connection error increments the consecutive
error counter by one and reschedules the same mode after its interval plus
`min(2*errs + 1, 20)` seconds with the post-increment count; a successful
scan resets the counter and logs "back online" exactly when it was non-zero.
In scenario S5, the first error after a success gives a 3-second backoff. -/
theorem scan_backoff_spec :
    ∀ (errs : Nat) (interval : ℚ),
      (scan errs interval .connError).scanConnErrs = errs + 1 ∧
      (scan errs interval .connError).nextDelay =
        interval + (min (2 * (errs + 1) + 1) 20 : ℕ) ∧
      (scan errs interval .connError).loggedBackoff =
        some (min (2 * (errs + 1) + 1) 20) ∧
      (scan errs interval .success).scanConnErrs = 0 ∧
      ((scan errs interval .success).loggedBackOnline = true ↔ 0 < errs) ∧
      (scan 0 30 .connError).nextDelay = 30 + 3 ∧
      (scan 0 30 .connError).loggedBackoff = some 3 := by
  intro errs interval
  refine ⟨rfl, ?_, ?_, rfl, ?_, by norm_num [scan], by norm_num [scan]⟩
  · simp [scan, Nat.mul_comm]
  · simp [scan, Nat.mul_comm]
  · simp [scan]

/-- C9: while paused, `handle_event` appends to the FIFO pause buffer,
dropping the oldest entry with a warning exactly when the buffer already
holds 100 events, so the buffer never grows beyond 100; `resume` hands every
buffered event to the handlers in FIFO order and leaves the buffer empty. -/
theorem pause_resume_fifo :
    ∀ (d : Dispatcher Nat) (ev : Nat),
      (d.paused = true →
        (handle_event d ev).1.pauseQueue =
          (if 100 ≤ d.pauseQueue.length then d.pauseQueue.drop 1
           else d.pauseQueue) ++ [ev] ∧
        ((handle_event d ev).2 = true ↔ 100 ≤ d.pauseQueue.length) ∧
        (handle_event d ev).1.delivered = d.delivered) ∧
      (d.pauseQueue.length ≤ 100 →
        (handle_event d ev).1.pauseQueue.length ≤ 100) ∧
      (resume d).pauseQueue = [] ∧
      (resume d).delivered = d.delivered ++ d.pauseQueue ∧
      (resume d).paused = false := by
  intro d ev
  refine ⟨?_, ?_, rfl, rfl, rfl⟩
  · intro hp
    simp only [handle_event, hp, if_true]
    split <;> simp_all
  · intro hlen
    simp only [handle_event]
    split
    · split <;> simp <;> omega
    · simpa [emitEvent] using hlen

/-- Witness for C9: a paused dispatcher holding two events buffers a third
without warning. -/
theorem pause_resume_fifo_witness :
    (handle_event (⟨true, [1, 2], []⟩ : Dispatcher Nat) 7).1.pauseQueue =
      [1, 2, 7] ∧
    (resume (⟨true, [1, 2], []⟩ : Dispatcher Nat)).delivered = [1, 2] := by
  have h := pause_resume_fifo (⟨true, [1, 2], []⟩ : Dispatcher Nat) 7
  exact ⟨by rw [(h.1 rfl).1]; decide, by rw [h.2.2.2.1]; decide⟩

end Pyowmaster
